import Mathlib

/-!
Verification development for `restore_icons.py` (SecureShare icon generator).

The source program draws a stylized cube icon onto a transparent RGBA canvas
using PIL, at one of three detail tiers chosen from the target pixel size, and
a driver writes six PNG files plus one fixed SVG document.

The embedding below models:
 * the shape list each call to `create_geometric_icon` emits (drawing
   primitives with exact integer coordinates and RGBA fill colors, in draw
   order) — Python's `//` and `int(...)` on the nonnegative quantities
   involved are floor divisions, modelled with `ℤ` division (which, in this
   Lean, is euclidean division and agrees with floor for the positive
   constant divisors 2, 3, 4, 5, 10 used by the program);
 * a conservative rasterizer: each primitive's painted pixels lie inside its
   bounding box (inflated by the stroke width for strokes), so a pixel
   outside every footprint is untouched and keeps the transparent background
   `(0,0,0,0)` the canvas is initialized with;
 * an exact-rational mirror of the coordinate arithmetic (`…CoordsQ`), with
   floors placed exactly where Python floors (`int(...)` casts, `//`), used
   to show all coordinates reaching the rasterizer are integral;
 * the driver `generate_icons` as a trace of filesystem operations with a
   small overwrite-semantics interpreter, and the SVG payload verbatim.
-/

namespace SecureShare

/-- RGBA color, channels in 0..255. -/
abbrev Color := ℕ × ℕ × ℕ × ℕ

/-- The alpha channel of an RGBA color. -/
def alphaOf (c : Color) : ℕ := c.2.2.2

/-- `red_color = (217, 67, 67, 255)`, the primary fill (#d94343). -/
def red_color : Color := (217, 67, 67, 255)

/-- `darker_red = (180, 50, 50, 255)`, the darker shade used for depth. -/
def darker_red : Color := (180, 50, 50, 255)

/-- `(237, 87, 87, 255)`, the lighter red of the detailed tier's top face. -/
def lighter_red : Color := (237, 87, 87, 255)

/-- `(150, 40, 40, 255)`, the dark color of the detailed tier's edge lines. -/
def edge_dark : Color := (150, 40, 40, 255)

/-- `(255, 255, 255, 200)`, translucent white of the bars and the S arcs. -/
def white_translucent : Color := (255, 255, 255, 200)

/-- One drawing primitive handed to the rasterizer, mirroring the
`ImageDraw` calls of `create_geometric_icon`: `draw.rectangle`,
`draw.polygon`, `draw.line` (with width) and `draw.arc` (with start and end
angle and width). -/
inductive Shape
  | rect (x1 y1 x2 y2 : ℤ) (fill : Color)
  | poly (pts : List (ℤ × ℤ)) (fill : Color)
  | line (x1 y1 x2 y2 : ℤ) (fill : Color) (width : ℤ)
  | arc (x1 y1 x2 y2 : ℤ) (startAng endAng : ℤ) (fill : Color) (width : ℤ)
  deriving DecidableEq

/-- The fill (or stroke) color of a primitive. -/
def fillOf : Shape → Color
  | .rect _ _ _ _ f => f
  | .poly _ f => f
  | .line _ _ _ _ f _ => f
  | .arc _ _ _ _ _ _ f _ => f

/-- Is this primitive a stroked line? -/
def isLine : Shape → Bool
  | .line _ _ _ _ _ _ => true
  | _ => false

/-- Is this primitive a stroked arc? -/
def isArc : Shape → Bool
  | .arc _ _ _ _ _ _ _ _ => true
  | _ => false

/-- Minimum of a list of integers (`0` for the empty list; only applied to
nonempty vertex lists). -/
def minL : List ℤ → ℤ
  | [] => 0
  | [a] => a
  | a :: b :: rest => min a (minL (b :: rest))

/-- Maximum of a list of integers (`0` for the empty list). -/
def maxL : List ℤ → ℤ
  | [] => 0
  | [a] => a
  | a :: b :: rest => max a (maxL (b :: rest))

/-- The x coordinates of a vertex list. -/
def xsOf (pts : List (ℤ × ℤ)) : List ℤ := pts.map Prod.fst

/-- The y coordinates of a vertex list. -/
def ysOf (pts : List (ℤ × ℤ)) : List ℤ := pts.map Prod.snd

/-- Conservative footprint of a primitive: every pixel PIL paints for the
primitive lies in this region.  A rectangle paints exactly its (inclusive)
box; a polygon paints inside the bounding box of its integer vertices; line
and arc strokes stay inside the bounding box of their endpoints / bounding
box, inflated by the stroke width. -/
def inFootprint (s : Shape) (p : ℤ × ℤ) : Bool :=
  match s with
  | .rect x1 y1 x2 y2 _ =>
      decide (x1 ≤ p.1 ∧ p.1 ≤ x2 ∧ y1 ≤ p.2 ∧ p.2 ≤ y2)
  | .poly pts _ =>
      decide (minL (xsOf pts) ≤ p.1 ∧ p.1 ≤ maxL (xsOf pts) ∧
        minL (ysOf pts) ≤ p.2 ∧ p.2 ≤ maxL (ysOf pts))
  | .line x1 y1 x2 y2 _ w =>
      decide (min x1 x2 - w ≤ p.1 ∧ p.1 ≤ max x1 x2 + w ∧
        min y1 y2 - w ≤ p.2 ∧ p.2 ≤ max y1 y2 + w)
  | .arc x1 y1 x2 y2 _ _ _ w =>
      decide (min x1 x2 - w ≤ p.1 ∧ p.1 ≤ max x1 x2 + w ∧
        min y1 y2 - w ≤ p.2 ∧ p.2 ≤ max y1 y2 + w)

/-- The transparent background `(0, 0, 0, 0)` the canvas starts with. -/
def blank : Color := (0, 0, 0, 0)

/-- Conservative rasterization of a shape list at one pixel: apply the
primitives in draw order; a primitive recolors only pixels inside its
footprint, every other pixel keeps its previous color.  The canvas starts
fully transparent (`Image.new('RGBA', (size, size), (0, 0, 0, 0))`). -/
def render (shapes : List Shape) (p : ℤ × ℤ) : Color :=
  shapes.foldl (fun c s => if inFootprint s p then fillOf s else c) blank

/-- An RGBA image: dimensions plus pixel contents. -/
structure Img where
  width : ℤ
  height : ℤ
  px : ℤ × ℤ → Color

/-- The three construction tiers of `create_geometric_icon`. -/
inductive Tier
  | simple
  | medium
  | detailed
  deriving DecidableEq

/-- Tier classification implicit in the `if size <= 19 / elif size <= 48 /
else` chain of `create_geometric_icon`. -/
def tierOf (size : ℤ) : Tier :=
  if size ≤ 19 then .simple else if size ≤ 48 then .medium else .detailed

/-- The `size <= 19` branch: a centered square (side `int(size * 0.7)`) in
the primary color, plus, when `size >= 16`, three thin translucent-white
horizontal bars. -/
def simpleShapes (size : ℤ) : List Shape :=
  let center_x := size / 2
  let center_y := size / 2
  let box_size := size * 7 / 10
  let x1 := center_x - box_size / 2
  let y1 := center_y - box_size / 2
  let x2 := center_x + box_size / 2
  let y2 := center_y + box_size / 2
  Shape.rect x1 y1 x2 y2 red_color ::
    (if 16 ≤ size then
      [Shape.rect (x1 + 2) (y1 + 2) (x2 - 2) (y1 + 3) white_translucent,
       Shape.rect (x1 + 2) (center_y - 1) (x2 - 2) center_y white_translucent,
       Shape.rect (x1 + 2) (y2 - 3) (x2 - 2) (y2 - 2) white_translucent]
     else [])

/-- The `size <= 48` branch: front square face (`cube_size = int(size*0.5)`,
`offset = cube_size // 3`) in the primary color, then top and right
parallelogram faces, both in the darker shade. -/
def mediumShapes (size : ℤ) : List Shape :=
  let center_x := size / 2
  let center_y := size / 2
  let cube_size := size / 2
  let offset := cube_size / 3
  let x1 := center_x - cube_size / 2
  let y1 := center_y - cube_size / 2 + offset / 2
  let x2 := center_x + cube_size / 2
  let y2 := center_y + cube_size / 2 + offset / 2
  [Shape.rect x1 y1 x2 y2 red_color,
   Shape.poly [(x1, y1), (x1 + offset, y1 - offset),
     (x2 + offset, y1 - offset), (x2, y1)] darker_red,
   Shape.poly [(x2, y1), (x2 + offset, y1 - offset),
     (x2 + offset, y2 - offset), (x2, y2)] darker_red]

/-- The `size > 48` branch: three quadrilateral faces
(`cube_size = int(size*0.4)`, `offset = cube_size // 2.5` — a float floor
division whose value is the integer `cube_size * 2 / 5`), three dark edge
lines of width 1, and, when `size >= 128`, the two translucent-white S arcs
of width 3. -/
def detailedShapes (size : ℤ) : List Shape :=
  let center_x := size / 2
  let center_y := size / 2
  let cube_size := size * 2 / 5
  let offset := cube_size * 2 / 5
  let x1 := center_x - cube_size / 2
  let y1 := center_y - cube_size / 3
  let x2 := center_x + cube_size / 2
  let y2 := center_y + cube_size / 3
  [Shape.poly [(x1, y1 + offset / 2), (x1, y2 + offset / 2),
     (x2, y2 + offset / 2), (x2, y1 + offset / 2)] red_color,
   Shape.poly [(x1, y1 + offset / 2), (x1 + offset, y1 - offset / 2),
     (x2 + offset, y1 - offset / 2), (x2, y1 + offset / 2)] lighter_red,
   Shape.poly [(x2, y1 + offset / 2), (x2 + offset, y1 - offset / 2),
     (x2 + offset, y2 - offset / 2), (x2, y2 + offset / 2)] darker_red,
   Shape.line x1 (y1 + offset / 2) x2 (y1 + offset / 2) edge_dark 1,
   Shape.line x2 (y1 + offset / 2) x2 (y2 + offset / 2) edge_dark 1,
   Shape.line x1 (y1 + offset / 2) x1 (y2 + offset / 2) edge_dark 1] ++
  (if 128 ≤ size then
    let s_size := cube_size / 3
    let s_x := center_x
    let s_y := center_y + offset / 4
    [Shape.arc (s_x - s_size / 2) (s_y - s_size / 2) (s_x + s_size / 2) s_y
       0 180 white_translucent 3,
     Shape.arc (s_x - s_size / 2) s_y (s_x + s_size / 2) (s_y + s_size / 2)
       180 360 white_translucent 3]
   else [])

/-- The full shape list `create_geometric_icon` draws for a given size. -/
def iconShapes (size : ℤ) : List Shape :=
  match tierOf size with
  | .simple => simpleShapes size
  | .medium => mediumShapes size
  | .detailed => detailedShapes size

/-- `create_geometric_icon(size)`: a size×size RGBA canvas, initialized
fully transparent, with the tier's shapes rasterized onto it. -/
def create_geometric_icon (size : ℤ) : Img :=
  { width := size, height := size, px := render (iconShapes size) }

/-- The four corner pixels of a size×size canvas. -/
def cornersOf (size : ℤ) : List (ℤ × ℤ) :=
  [(0, 0), (size - 1, 0), (0, size - 1), (size - 1, size - 1)]

/-- The lines of the SVG document `generate_icons` writes, verbatim from
the source's triple-quoted literal. -/
def svg_lines : List String :=
  ["<svg width=\"128\" height=\"128\" viewBox=\"0 0 128 128\" xmlns=\"http://www.w3.org/2000/svg\">",
   "  <!-- Transparent background -->",
   "  <rect width=\"128\" height=\"128\" fill=\"transparent\" opacity=\"0\"/>",
   "  ",
   "  <!-- Geometric symbol -->",
   "  <g transform=\"translate(64, 64) scale(1.4)\" fill=\"#d94343\">",
   "    <!-- Original geometric symbol scaled and centered -->",
   "    <g transform=\"translate(-25, -25) scale(1.0)\">",
   "      <!-- Top rectangle/face -->",
   "      <path d=\"M45.6,14.7v20.9l-7.7,0.02l-11.4-0.007V14.8l19.1-0.02 M25.9,13.9c-0.26,0.036-0.39,0.17-0.4,0.41v21.8    c0.021,0.28,0.16,0.42,0.42,0.43l19.9,0c0.11-0.007,0.21-0.05,0.29-0.14c0.078-0.11,0.11-0.2,0.1-0.29V14.4c-0.007-0.24-0.14-0.38-0.4-0.41l-19.9,0\"/>",
   "      ",
   "      <!-- Bottom right face -->",
   "      <path d=\"M44.2,37.8L26.1,48.3l-3.9-6.7l-5.7-9.9l18.1-10.5L44.2,37.8 M35.1,20.4c-0.16-0.21-0.35-0.26-0.56-0.14    L15.8,31.2c-0.23,0.16-0.29,0.35-0.16,0.58l10,17.3c0.064,0.093,0.15,0.16,0.26,0.18c0.13,0.014,0.23-0.007,0.29-0.057l18.8-10.9    c0.2-0.12,0.26-0.31,0.16-0.55L35.1,20.4\"/>",
   "      ",
   "      <!-- Bottom left face -->",
   "      <path d=\"M23.7,48.2L5.5,37.7l3.8-6.7l5.7-9.9l18.1,10.5L23.7,48.2 M34.1,31.6c0.1-0.24,0.05-0.43-0.15-0.55    L15.1,20.2c-0.25-0.12-0.45-0.07-0.58,0.15L4.6,37.6c-0.05,0.1-0.064,0.21-0.021,0.32c0.057,0.12,0.12,0.19,0.2,0.23l18.8,10.9    c0.21,0.11,0.39,0.07,0.56-0.14l10-17.3\"/>",
   "      ",
   "      <!-- Left face -->",
   "      <path d=\"M4.4,35.5V14.5l7.7-0.021l11.4,0.007v21l-19.1,0.021 M23.9,36.3c0.26-0.036,0.39-0.17,0.4-0.41V14.1    c-0.021-0.28-0.16-0.42-0.42-0.43l-19.9,0c-0.11,0.007-0.21,0.05-0.29,0.14c-0.078,0.11-0.11,0.2-0.1,0.29v21.8c0.007,0.24,0.14,0.38,0.4,0.41l19.9,0\"/>",
   "      ",
   "      <!-- Top right face -->",
   "      <path d=\"M26.3,2.1l18.1,10.5L40.6,19.3l-5.7,9.9L16.7,18.7L26.3,2.1 M15.8,18.6c-0.1,0.24-0.05,0.43,0.15,0.55    l18.8,10.9c0.25,0.12,0.45,0.07,0.58-0.15l10-17.3c0.05-0.1,0.064-0.21,0.021-0.32c-0.057-0.12-0.12-0.19-0.2-0.23L26.4,1.2    c-0.21-0.11-0.39-0.07-0.56,0.14L15.8,18.6\"/>",
   "      ",
   "      <!-- Top left face -->",
   "      <path d=\"M5.7,12.5L23.8,2l3.9,6.7l5.7,9.9L15.3,29.1L5.7,12.5 M14.8,29.8c0.16,0.21,0.35,0.26,0.56,0.14    l18.8-10.9c0.23-0.16,0.29-0.35,0.16-0.58L24.3,1.2c-0.064-0.093-0.15-0.16-0.26-0.18c-0.13-0.014-0.23,0.007-0.29,0.057L5,11.9    c-0.2,0.12-0.26,0.31-0.16,0.55l9.9,17.3\"/>",
   "    </g>",
   "  </g>",
   "</svg>"]

/-- The SVG document `generate_icons` writes: the lines joined by newlines. -/
def svg_content : String := String.intercalate "\n" svg_lines

/-- A filesystem operation the driver performs, in order. -/
inductive FsOp
  | ensureDir (path : String)
  | writePng (path : String) (icon : Img)
  | writeText (path : String) (content : String)

/-- The fixed size list `sizes = [16, 18, 19, 38, 48, 128]`. -/
def sizes : List ℤ := [16, 18, 19, 38, 48, 128]

/-- The operation trace of `generate_icons`: ensure the `icons` directory
exists (`os.path.exists` guard before `os.makedirs`), write one PNG per size
in list order, then write the fixed SVG document. -/
def generate_icons : List FsOp :=
  FsOp.ensureDir "icons" ::
    sizes.map (fun s => FsOp.writePng ("icons/" ++ toString s ++ ".png")
      (create_geometric_icon s)) ++
    [FsOp.writeText "icons/secure-share-icon-transparent.svg" svg_content]

/-- Contents of a written file. -/
inductive FileData
  | png (icon : Img)
  | text (content : String)

/-- Filesystem state: existing directories and files (path with contents). -/
structure FS where
  dirs : List String
  files : List (String × FileData)

/-- Drop every entry with the given path. -/
def eraseKey : List (String × FileData) → String → List (String × FileData)
  | [], _ => []
  | e :: rest, q => if e.1 = q then eraseKey rest q else e :: eraseKey rest q

/-- Write a file, overwriting any existing file at that path (mode `'w'` /
`img.save`). -/
def writeFile (fs : FS) (p : String) (d : FileData) : FS :=
  { fs with files := (p, d) :: eraseKey fs.files p }

/-- Effect of one operation on the filesystem.  `ensureDir` creates the
directory only when absent and is a no-op (not an error) when present. -/
def applyOp (fs : FS) (op : FsOp) : FS :=
  match op with
  | .ensureDir d => if d ∈ fs.dirs then fs else { fs with dirs := d :: fs.dirs }
  | .writePng p icon => writeFile fs p (FileData.png icon)
  | .writeText p c => writeFile fs p (FileData.text c)

/-- Run a trace of operations from an initial filesystem state. -/
def runOps (fs : FS) (ops : List FsOp) : FS := ops.foldl applyOp fs

/-- Does `pat` occur at the very start of `s`? -/
def headMatches : List Char → List Char → Bool
  | [], _ => true
  | _ :: _, [] => false
  | a :: as, b :: bs => a == b && headMatches as bs

/-- Number of positions of `s` at which `pat` occurs. -/
def countOcc (pat : List Char) : List Char → ℕ
  | [] => 0
  | c :: rest => (if headMatches pat (c :: rest) then 1 else 0) + countOcc pat rest

/-- Number of occurrences of `pat` in the string `s`. -/
def countSubstr (pat s : String) : ℕ := countOcc pat.data s.data

/-- The coordinates a primitive passes to the rasterizer, in source order. -/
def shapeCoords : Shape → List ℤ
  | .rect x1 y1 x2 y2 _ => [x1, y1, x2, y2]
  | .poly pts _ => pts.foldr (fun q acc => q.1 :: q.2 :: acc) []
  | .line x1 y1 x2 y2 _ _ => [x1, y1, x2, y2]
  | .arc x1 y1 x2 y2 _ _ _ _ => [x1, y1, x2, y2]

/-- All coordinates `create_geometric_icon` passes to drawing primitives. -/
def iconCoords (size : ℤ) : List ℤ :=
  (iconShapes size).foldr (fun s acc => shapeCoords s ++ acc) []

/-- Exact-rational mirror of the simple branch's coordinate arithmetic.  In
the source every quantity here is a Python `int` (the single float
expression `size * 0.7` is floored by the `int(...)` cast before use). -/
def simpleCoordsQ (size : ℤ) : List ℚ :=
  let center_x : ℤ := size / 2
  let center_y : ℤ := size / 2
  let box_size : ℤ := ⌊(size * 7 : ℚ) / 10⌋
  let x1 : ℤ := center_x - box_size / 2
  let y1 : ℤ := center_y - box_size / 2
  let x2 : ℤ := center_x + box_size / 2
  let y2 : ℤ := center_y + box_size / 2
  [(x1 : ℚ), (y1 : ℚ), (x2 : ℚ), (y2 : ℚ)] ++
    (if 16 ≤ size then
      [((x1 + 2 : ℤ) : ℚ), ((y1 + 2 : ℤ) : ℚ), ((x2 - 2 : ℤ) : ℚ), ((y1 + 3 : ℤ) : ℚ),
       ((x1 + 2 : ℤ) : ℚ), ((center_y - 1 : ℤ) : ℚ), ((x2 - 2 : ℤ) : ℚ), ((center_y : ℤ) : ℚ),
       ((x1 + 2 : ℤ) : ℚ), ((y2 - 3 : ℤ) : ℚ), ((x2 - 2 : ℤ) : ℚ), ((y2 - 2 : ℤ) : ℚ)]
     else [])

/-- Exact-rational mirror of the medium branch's coordinate arithmetic; all
quantities are Python `int`s in the source. -/
def mediumCoordsQ (size : ℤ) : List ℚ :=
  let center_x : ℤ := size / 2
  let center_y : ℤ := size / 2
  let cube_size : ℤ := ⌊(size : ℚ) / 2⌋
  let offset : ℤ := cube_size / 3
  let x1 : ℤ := center_x - cube_size / 2
  let y1 : ℤ := center_y - cube_size / 2 + offset / 2
  let x2 : ℤ := center_x + cube_size / 2
  let y2 : ℤ := center_y + cube_size / 2 + offset / 2
  [(x1 : ℚ), (y1 : ℚ), (x2 : ℚ), (y2 : ℚ),
   (x1 : ℚ), (y1 : ℚ), ((x1 + offset : ℤ) : ℚ), ((y1 - offset : ℤ) : ℚ),
   ((x2 + offset : ℤ) : ℚ), ((y1 - offset : ℤ) : ℚ), (x2 : ℚ), (y1 : ℚ),
   (x2 : ℚ), (y1 : ℚ), ((x2 + offset : ℤ) : ℚ), ((y1 - offset : ℤ) : ℚ),
   ((x2 + offset : ℤ) : ℚ), ((y2 - offset : ℤ) : ℚ), (x2 : ℚ), (y2 : ℚ)]

/-- Exact-rational mirror of the detailed branch's coordinate arithmetic.
Here `offset = cube_size // 2.5` is a Python *float*: it is modelled as a
rational whose value is the floor of `cube_size / 2.5`, and the derived
`offset // 2` and `offset // 4` as rationals obtained by the corresponding
float floor divisions, exactly where the source floors. -/
def detailedCoordsQ (size : ℤ) : List ℚ :=
  let center_x : ℤ := size / 2
  let center_y : ℤ := size / 2
  let cube_size : ℤ := ⌊(size * 2 : ℚ) / 5⌋
  let offset : ℚ := (⌊(cube_size : ℚ) / (5 / 2 : ℚ)⌋ : ℤ)
  let oh : ℚ := (⌊offset / 2⌋ : ℤ)
  let oq : ℚ := (⌊offset / 4⌋ : ℤ)
  let x1 : ℤ := center_x - cube_size / 2
  let y1 : ℤ := center_y - cube_size / 3
  let x2 : ℤ := center_x + cube_size / 2
  let y2 : ℤ := center_y + cube_size / 3
  [(x1 : ℚ), (y1 : ℚ) + oh, (x1 : ℚ), (y2 : ℚ) + oh,
   (x2 : ℚ), (y2 : ℚ) + oh, (x2 : ℚ), (y1 : ℚ) + oh,
   (x1 : ℚ), (y1 : ℚ) + oh, (x1 : ℚ) + offset, (y1 : ℚ) - oh,
   (x2 : ℚ) + offset, (y1 : ℚ) - oh, (x2 : ℚ), (y1 : ℚ) + oh,
   (x2 : ℚ), (y1 : ℚ) + oh, (x2 : ℚ) + offset, (y1 : ℚ) - oh,
   (x2 : ℚ) + offset, (y2 : ℚ) - oh, (x2 : ℚ), (y2 : ℚ) + oh,
   (x1 : ℚ), (y1 : ℚ) + oh, (x2 : ℚ), (y1 : ℚ) + oh,
   (x2 : ℚ), (y1 : ℚ) + oh, (x2 : ℚ), (y2 : ℚ) + oh,
   (x1 : ℚ), (y1 : ℚ) + oh, (x1 : ℚ), (y2 : ℚ) + oh] ++
  (if 128 ≤ size then
    let s_size : ℤ := cube_size / 3
    let s_x : ℤ := center_x
    let s_y : ℚ := (center_y : ℚ) + oq
    [(s_x : ℚ) - (s_size / 2 : ℤ), s_y - (s_size / 2 : ℤ),
     (s_x : ℚ) + (s_size / 2 : ℤ), s_y,
     (s_x : ℚ) - (s_size / 2 : ℤ), s_y,
     (s_x : ℚ) + (s_size / 2 : ℤ), s_y + (s_size / 2 : ℤ)]
   else [])

/-- Exact-rational mirror of all coordinates, across the three tiers. -/
def iconCoordsQ (size : ℤ) : List ℚ :=
  match tierOf size with
  | .simple => simpleCoordsQ size
  | .medium => mediumCoordsQ size
  | .detailed => detailedCoordsQ size

/-- A simple lookup by path in a file association list. -/
def lookupF : List (String × FileData) → String → Option FileData
  | [], _ => none
  | e :: rest, q => if e.1 = q then some e.2 else lookupF rest q

section helper_lemmas

theorem iconShapes_of_simple {size : ℤ} (h : size ≤ 19) :
    iconShapes size = simpleShapes size := by
  unfold iconShapes tierOf
  rw [if_pos h]

theorem iconShapes_of_medium {size : ℤ} (h1 : 19 < size) (h2 : size ≤ 48) :
    iconShapes size = mediumShapes size := by
  unfold iconShapes tierOf
  rw [if_neg (by omega), if_pos h2]

theorem iconShapes_of_detailed {size : ℤ} (h : 48 < size) :
    iconShapes size = detailedShapes size := by
  unfold iconShapes tierOf
  rw [if_neg (by omega), if_neg (by omega)]

theorem foldl_of_untouched (p : ℤ × ℤ) (shapes : List Shape) (c : Color)
    (h : ∀ s ∈ shapes, inFootprint s p = false) :
    shapes.foldl (fun c s => if inFootprint s p then fillOf s else c) c = c := by
  induction shapes generalizing c with
  | nil => rfl
  | cons a rest ih =>
      have ha : inFootprint a p = false := h a (by simp)
      rw [List.foldl_cons, if_neg (by simp [ha])]
      exact ih c (fun s hs => h s (by simp [hs]))

theorem render_of_untouched (p : ℤ × ℤ) (shapes : List Shape)
    (h : ∀ s ∈ shapes, inFootprint s p = false) :
    render shapes p = blank :=
  foldl_of_untouched p shapes blank h

theorem lookupF_eraseKey_ne (l : List (String × FileData)) (p q : String)
    (h : p ≠ q) :
    lookupF (eraseKey l q) p = lookupF l p := by
  induction l with
  | nil => rfl
  | cons e rest ih =>
      by_cases he : e.1 = q
      · have hep : e.1 ≠ p := fun hc => h (hc.symm.trans he)
        simp [eraseKey, lookupF, he, hep, ih, Ne.symm h]
      · simp [eraseKey, lookupF, he, ih]

theorem lookupF_writeFile_self (fs : FS) (p : String) (d : FileData) :
    lookupF (writeFile fs p d).files p = some d := by
  simp [writeFile, lookupF]

theorem lookupF_writeFile_ne (fs : FS) (p q : String) (d : FileData)
    (h : p ≠ q) :
    lookupF (writeFile fs q d).files p = lookupF fs.files p := by
  have hqp : q ≠ p := fun hc => h hc.symm
  simp only [writeFile, lookupF, hqp, if_neg]
  · exact lookupF_eraseKey_ne fs.files p q h

theorem dirs_writeFile (fs : FS) (p : String) (d : FileData) :
    (writeFile fs p d).dirs = fs.dirs := rfl

end helper_lemmas

/-- Claim C2: tier classification is a total function of size with exact,
non-overlapping thresholds: size ≤ 19 takes the simple path, 20 ≤ size ≤ 48
the medium path, size > 48 the detailed path; in particular 19 is simple,
20 and 48 are medium, 49 is detailed. -/
theorem tier_thresholds (size : ℤ) (h : 1 ≤ size) :
    (size ≤ 19 → tierOf size = Tier.simple ∧ iconShapes size = simpleShapes size) ∧
    (20 ≤ size → size ≤ 48 → tierOf size = Tier.medium ∧ iconShapes size = mediumShapes size) ∧
    (48 < size → tierOf size = Tier.detailed ∧ iconShapes size = detailedShapes size) ∧
    tierOf 19 = Tier.simple ∧ tierOf 20 = Tier.medium ∧
    tierOf 48 = Tier.medium ∧ tierOf 49 = Tier.detailed := by
  refine ⟨fun h1 => ⟨?_, iconShapes_of_simple h1⟩,
         fun h1 h2 => ⟨?_, iconShapes_of_medium (by omega) h2⟩,
         fun h1 => ⟨?_, iconShapes_of_detailed h1⟩,
         by decide, by decide, by decide, by decide⟩
  · unfold tierOf
    rw [if_pos h1]
  · unfold tierOf
    rw [if_neg (by omega), if_pos h2]
  · unfold tierOf
    rw [if_neg (by omega), if_neg (by omega)]

theorem tier_thresholds_witness : tierOf 20 = Tier.medium :=
  ((tier_thresholds 20 (by norm_num)).2.1 (by norm_num) (by norm_num)).1

/-- Claim C3 as stated fails on the code: at size 16 the three bar overlays
are drawn with alpha 200, not 255. -/
theorem all_fills_opaque_counterexample :
    ¬ (∀ s ∈ iconShapes 16, alphaOf (fillOf s) = 255) := by decide

/-- Claim C3 (amended): every drawn primitive is flat-filled with either a
fully opaque color (alpha 255) or the translucent white (255, 255, 255, 200)
used for the simple tier's bars and the detailed tier's S arcs. -/
theorem all_fills_opaque_or_translucent (size : ℤ) (h : 1 ≤ size) :
    ∀ s ∈ iconShapes size,
      alphaOf (fillOf s) = 255 ∨ fillOf s = white_translucent := by
  intro s hs
  rcases le_or_lt size 19 with h1 | h1
  · rw [iconShapes_of_simple h1] at hs
    simp only [simpleShapes] at hs
    by_cases h16 : (16 : ℤ) ≤ size
    · rw [if_pos h16] at hs
      simp only [List.mem_cons, List.not_mem_nil, or_false] at hs
      rcases hs with rfl | rfl | rfl | rfl
      · exact Or.inl rfl
      all_goals exact Or.inr rfl
    · rw [if_neg h16] at hs
      simp only [List.mem_cons, List.not_mem_nil, or_false] at hs
      rcases hs with rfl
      exact Or.inl rfl
  · rcases le_or_lt size 48 with h2 | h2
    · rw [iconShapes_of_medium h1 h2] at hs
      simp only [mediumShapes, List.mem_cons, List.not_mem_nil, or_false] at hs
      rcases hs with rfl | rfl | rfl
      all_goals exact Or.inl rfl
    · rw [iconShapes_of_detailed h2] at hs
      simp only [detailedShapes, List.mem_append, List.mem_cons,
        List.not_mem_nil, or_false] at hs
      by_cases h128 : (128 : ℤ) ≤ size
      · rw [if_pos h128] at hs
        simp only [List.mem_cons, List.not_mem_nil, or_false] at hs
        rcases hs with (rfl | rfl | rfl | rfl | rfl | rfl) | (rfl | rfl)
        · exact Or.inl rfl
        · exact Or.inl rfl
        · exact Or.inl rfl
        · exact Or.inl rfl
        · exact Or.inl rfl
        · exact Or.inl rfl
        all_goals exact Or.inr rfl
      · rw [if_neg h128] at hs
        simp only [List.not_mem_nil, or_false] at hs
        rcases hs with rfl | rfl | rfl | rfl | rfl | rfl
        all_goals exact Or.inl rfl

theorem all_fills_opaque_or_translucent_witness :
    alphaOf (fillOf (Shape.rect 3 3 13 13 red_color)) = 255 ∨
      fillOf (Shape.rect 3 3 13 13 red_color) = white_translucent :=
  all_fills_opaque_or_translucent 16 (by norm_num) _ (by decide)

/-- Claim C7: the two-arc S glyph is drawn iff size ≥ 128: sizes below 128
produce no arc primitives (in particular size 127), while size ≥ 128 (in
particular 128) produces exactly two 180-degree stroked arcs of width 3 in
translucent white, horizontally centered on the front face and placed
strictly below the canvas center. -/
theorem s_glyph_arcs (size : ℤ) (h : 1 ≤ size) :
    ((iconShapes size).countP isArc = if 128 ≤ size then 2 else 0) ∧
    (iconShapes 127).countP isArc = 0 ∧
    (iconShapes 128).countP isArc = 2 ∧
    (128 ≤ size → ∃ s_size s_x s_y : ℤ,
      s_size = (size * 2 / 5) / 3 ∧ s_x = size / 2 ∧
      s_y = size / 2 + (size * 2 / 5 * 2 / 5) / 4 ∧
      (iconShapes size).filter isArc =
        [Shape.arc (s_x - s_size / 2) (s_y - s_size / 2) (s_x + s_size / 2) s_y
           0 180 white_translucent 3,
         Shape.arc (s_x - s_size / 2) s_y (s_x + s_size / 2) (s_y + s_size / 2)
           180 360 white_translucent 3] ∧
      size / 2 < s_y ∧
      (size / 2 - (size * 2 / 5) / 2) + (size / 2 + (size * 2 / 5) / 2) = 2 * s_x) := by
  refine ⟨?_, by decide, by decide, ?_⟩
  · rcases le_or_lt size 19 with h1 | h1
    · rw [iconShapes_of_simple h1, if_neg (by omega)]
      simp only [simpleShapes]
      by_cases h16 : (16 : ℤ) ≤ size
      · rw [if_pos h16]
        rfl
      · rw [if_neg h16]
        rfl
    · rcases le_or_lt size 48 with h2 | h2
      · rw [iconShapes_of_medium h1 h2, if_neg (by omega)]
        rfl
      · rw [iconShapes_of_detailed h2]
        simp only [detailedShapes]
        by_cases h128 : (128 : ℤ) ≤ size
        · rw [if_pos h128, if_pos h128]
          rfl
        · rw [if_neg h128, if_neg h128]
          rfl
  · intro h128
    refine ⟨(size * 2 / 5) / 3, size / 2, size / 2 + (size * 2 / 5 * 2 / 5) / 4,
      rfl, rfl, rfl, ?_, by omega, by ring⟩
    rw [iconShapes_of_detailed (by omega)]
    simp only [detailedShapes]
    rw [if_pos h128]
    rfl

theorem s_glyph_arcs_witness : (iconShapes 127).countP isArc = 0 :=
  (s_glyph_arcs 127 (by norm_num)).2.1

/-- Claim C1: for every size ≥ 1, create_geometric_icon returns a size×size
RGBA canvas in which every pixel outside all drawn shapes keeps alpha 0, and
for the six generated sizes the four corner pixels are fully transparent. -/
theorem canvas_transparent_outside_shapes (size : ℤ) (h : 1 ≤ size) :
    (create_geometric_icon size).width = size ∧
    (create_geometric_icon size).height = size ∧
    (∀ p : ℤ × ℤ, (∀ s ∈ iconShapes size, inFootprint s p = false) →
      alphaOf ((create_geometric_icon size).px p) = 0) ∧
    (size ∈ sizes → ∀ p ∈ cornersOf size,
      alphaOf ((create_geometric_icon size).px p) = 0) := by
  refine ⟨rfl, rfl, ?_, ?_⟩
  · intro p hp
    show alphaOf (render (iconShapes size) p) = 0
    rw [render_of_untouched p _ hp]
    rfl
  · intro hmem
    simp only [sizes, List.mem_cons, List.not_mem_nil, or_false] at hmem
    rcases hmem with rfl | rfl | rfl | rfl | rfl | rfl
    all_goals decide

theorem canvas_transparent_outside_shapes_witness :
    alphaOf ((create_geometric_icon 16).px (0, 0)) = 0 :=
  (canvas_transparent_outside_shapes 16 (by norm_num)).2.2.2 (by decide) (0, 0)
    (by decide)

/-- Claim C5: for 20 ≤ size ≤ 48 the medium tier computes cube side
`int(size*0.5)` and depth offset `side // 3` and draws exactly three filled
regions: a front square face in the primary color, then top and right
parallelogram faces both in the secondary darker color, each swept from an
edge of the front face by the displacement (offset, -offset); the icon uses
exactly the two fill colors red_color and darker_red. -/
theorem medium_tier_structure (size : ℤ) (h1 : 20 ≤ size) (h2 : size ≤ 48) :
    ∃ cube off x1 y1 x2 y2 : ℤ,
      cube = size / 2 ∧ off = cube / 3 ∧
      x1 = size / 2 - cube / 2 ∧ y1 = size / 2 - cube / 2 + off / 2 ∧
      x2 = size / 2 + cube / 2 ∧ y2 = size / 2 + cube / 2 + off / 2 ∧
      iconShapes size =
        [Shape.rect x1 y1 x2 y2 red_color,
         Shape.poly [(x1, y1), (x1 + off, y1 - off),
           (x2 + off, y1 - off), (x2, y1)] darker_red,
         Shape.poly [(x2, y1), (x2 + off, y1 - off),
           (x2 + off, y2 - off), (x2, y2)] darker_red] ∧
      x2 - x1 = y2 - y1 ∧
      (iconShapes size).length = 3 ∧
      (iconShapes size).map fillOf = [red_color, darker_red, darker_red] := by
  have hs : iconShapes size = mediumShapes size :=
    iconShapes_of_medium (by omega) h2
  refine ⟨size / 2, (size / 2) / 3, _, _, _, _, rfl, rfl, rfl, rfl, rfl, rfl,
    ?_, by omega, ?_, ?_⟩
  · rw [hs]
    rfl
  · rw [hs]
    rfl
  · rw [hs]
    rfl

theorem medium_tier_structure_witness :
    (iconShapes 38).map fillOf = [red_color, darker_red, darker_red] := by
  obtain ⟨c, o, x1, y1, x2, y2, _, _, _, _, _, _, _, _, _, hmap⟩ :=
    medium_tier_structure 38 (by norm_num) (by norm_num)
  exact hmap

/-- Claim C6: for 1 ≤ size ≤ 19 the simple tier draws one centered square of
side `int(size*0.7)` in the primary color; exactly when size ≥ 16 it also
draws three thin translucent-white horizontal bars lying inside that square;
every painted pixel lies inside the square's footprint, and for size < 16
the icon is the square alone. -/
theorem simple_tier_structure (size : ℤ) (h1 : 1 ≤ size) (h2 : size ≤ 19) :
    ∃ b x1 y1 x2 y2 : ℤ,
      b = size * 7 / 10 ∧
      x1 = size / 2 - b / 2 ∧ y1 = size / 2 - b / 2 ∧
      x2 = size / 2 + b / 2 ∧ y2 = size / 2 + b / 2 ∧
      iconShapes size =
        Shape.rect x1 y1 x2 y2 red_color ::
          (if 16 ≤ size then
            [Shape.rect (x1 + 2) (y1 + 2) (x2 - 2) (y1 + 3) white_translucent,
             Shape.rect (x1 + 2) (size / 2 - 1) (x2 - 2) (size / 2) white_translucent,
             Shape.rect (x1 + 2) (y2 - 3) (x2 - 2) (y2 - 2) white_translucent]
           else []) ∧
      x2 - x1 = y2 - y1 ∧ x1 + x2 = 2 * (size / 2) ∧ y1 + y2 = 2 * (size / 2) ∧
      (size < 16 → iconShapes size = [Shape.rect x1 y1 x2 y2 red_color]) ∧
      (∀ s ∈ iconShapes size, ∀ p : ℤ × ℤ, inFootprint s p = true →
        inFootprint (Shape.rect x1 y1 x2 y2 red_color) p = true) ∧
      (∀ p : ℤ × ℤ, alphaOf ((create_geometric_icon size).px p) ≠ 0 →
        inFootprint (Shape.rect x1 y1 x2 y2 red_color) p = true) := by
  have hs : iconShapes size = simpleShapes size := iconShapes_of_simple h2
  have hcont : ∀ s ∈ iconShapes size, ∀ p : ℤ × ℤ, inFootprint s p = true →
      inFootprint (Shape.rect (size / 2 - (size * 7 / 10) / 2)
        (size / 2 - (size * 7 / 10) / 2) (size / 2 + (size * 7 / 10) / 2)
        (size / 2 + (size * 7 / 10) / 2) red_color) p = true := by
    intro s hmem p hp
    rw [hs] at hmem
    simp only [simpleShapes] at hmem
    by_cases h16 : (16 : ℤ) ≤ size
    · rw [if_pos h16] at hmem
      simp only [List.mem_cons, List.not_mem_nil, or_false] at hmem
      rcases hmem with rfl | rfl | rfl | rfl
      · exact hp
      all_goals
        simp only [inFootprint, decide_eq_true_eq] at hp ⊢
        omega
    · rw [if_neg h16] at hmem
      simp only [List.mem_cons, List.not_mem_nil, or_false] at hmem
      subst hmem
      exact hp
  refine ⟨size * 7 / 10, _, _, _, _, rfl, rfl, rfl, rfl, rfl, ?_, by omega,
    by omega, by omega, ?_, hcont, ?_⟩
  · rw [hs]
    rfl
  · intro hlt
    rw [hs]
    simp only [simpleShapes]
    rw [if_neg (by omega)]
  · intro p hp
    by_contra hsq
    apply hp
    show alphaOf (render (iconShapes size) p) = 0
    have hall : ∀ s ∈ iconShapes size, inFootprint s p = false := by
      intro s hmem
      cases hfoot : inFootprint s p
      · rfl
      · exact absurd (hcont s hmem p hfoot) hsq
    rw [render_of_untouched p _ hall]
    rfl

theorem simple_tier_structure_witness :
    iconShapes 8 = [Shape.rect 2 2 6 6 red_color] := by
  obtain ⟨b, x1, y1, x2, y2, hb, hx1, hy1, hx2, hy2, _, _, _, _, hlt, _, _⟩ :=
    simple_tier_structure 8 (by norm_num) (by norm_num)
  rw [hlt (by norm_num), hb] at *
  rw [hx1, hy1, hx2, hy2, hb]
  decide
/-- Claim C4: for size > 48 the detailed tier computes cube side
`int(size*0.4)` and offset `cube_size // 2.5` (a floor), and draws three
quadrilateral faces — an axis-aligned rectangular front face in the primary
color, a top parallelogram in the lighter tint sharing the front face's top
edge, and a right parallelogram in the darker secondary color sharing the
front face's right edge, both swept by the same displacement vector
`(off, -(off/2 + off/2))` (the offset vector under the uniform floor
rounding) — followed by exactly three width-1 edge-outline lines along the
top, right, and left edges of the front face in a fourth color darker than
all three faces. -/
theorem detailed_tier_structure (size : ℤ) (h : 48 < size) :
    ∃ cube off x1 x2 y1 y2 : ℤ,
      cube = size * 2 / 5 ∧ off = cube * 2 / 5 ∧
      x1 = size / 2 - cube / 2 ∧ x2 = size / 2 + cube / 2 ∧
      y1 = size / 2 - cube / 3 ∧ y2 = size / 2 + cube / 3 ∧
      (iconShapes size).take 6 =
        [Shape.poly [(x1, y1 + off / 2), (x1, y2 + off / 2),
           (x2, y2 + off / 2), (x2, y1 + off / 2)] red_color,
         Shape.poly [(x1, y1 + off / 2), (x1 + off, y1 - off / 2),
           (x2 + off, y1 - off / 2), (x2, y1 + off / 2)] lighter_red,
         Shape.poly [(x2, y1 + off / 2), (x2 + off, y1 - off / 2),
           (x2 + off, y2 - off / 2), (x2, y2 + off / 2)] darker_red,
         Shape.line x1 (y1 + off / 2) x2 (y1 + off / 2) edge_dark 1,
         Shape.line x2 (y1 + off / 2) x2 (y2 + off / 2) edge_dark 1,
         Shape.line x1 (y1 + off / 2) x1 (y2 + off / 2) edge_dark 1] ∧
      (iconShapes size).filter isLine =
        [Shape.line x1 (y1 + off / 2) x2 (y1 + off / 2) edge_dark 1,
         Shape.line x2 (y1 + off / 2) x2 (y2 + off / 2) edge_dark 1,
         Shape.line x1 (y1 + off / 2) x1 (y2 + off / 2) edge_dark 1] ∧
      y1 - off / 2 = (y1 + off / 2) - (off / 2 + off / 2) ∧
      y2 - off / 2 = (y2 + off / 2) - (off / 2 + off / 2) ∧
      x1 < x2 ∧ y1 + off / 2 < y2 + off / 2 ∧
      edge_dark.1 < darker_red.1 ∧ darker_red.1 < red_color.1 ∧
      red_color.1 < lighter_red.1 := by
  have hs : iconShapes size = detailedShapes size := iconShapes_of_detailed h
  refine ⟨size * 2 / 5, size * 2 / 5 * 2 / 5,
    size / 2 - (size * 2 / 5) / 2, size / 2 + (size * 2 / 5) / 2,
    size / 2 - (size * 2 / 5) / 3, size / 2 + (size * 2 / 5) / 3,
    rfl, rfl, rfl, rfl, rfl, rfl, ?_, ?_, by omega, by omega, by omega,
    by omega, by decide, by decide, by decide⟩
  · rw [hs]
    simp only [detailedShapes]
    by_cases h128 : (128 : ℤ) ≤ size
    · rw [if_pos h128]
      rfl
    · rw [if_neg h128]
      rfl
  · rw [hs]
    simp only [detailedShapes]
    by_cases h128 : (128 : ℤ) ≤ size
    · rw [if_pos h128]
      rfl
    · rw [if_neg h128]
      rfl

theorem detailed_tier_structure_witness :
    (iconShapes 49).filter isLine =
      [Shape.line 15 21 33 21 edge_dark 1,
       Shape.line 33 21 33 33 edge_dark 1,
       Shape.line 15 21 15 33 edge_dark 1] := by
  obtain ⟨cube, off, x1, x2, y1, y2, hc, ho, hx1, hx2, hy1, hy2, _, hfil, _⟩ :=
    detailed_tier_structure 49 (by norm_num)
  subst hc ho hx1 hx2 hy1 hy2
  rw [hfil]
  decide

set_option maxRecDepth 4000 in
/-- Claim C9: the vector file generate_icons writes is the fixed, hardcoded
128×128 SVG document whose content does not depend on the size loop (it is
the constant svg_content, written by the final trace operation), containing
exactly one top-level background rect with explicit zero opacity, exactly
six path elements (each opening directly with its `d` attribute), all six
sharing the single solid fill color #d94343 declared once on the enclosing
group, under one nested transform group (two nested g-transform elements):
occurrence counts taken per line of the document (no counted token spans a
line break). -/
theorem svg_document_properties :
    generate_icons.getLast? =
      some (FsOp.writeText "icons/secure-share-icon-transparent.svg" svg_content) ∧
    svg_content = String.intercalate "\n" svg_lines ∧
    svg_lines.head? = some "<svg width=\"128\" height=\"128\" viewBox=\"0 0 128 128\" xmlns=\"http://www.w3.org/2000/svg\">" ∧
    (svg_lines.map fun ln => countSubstr "<rect" ln).sum = 1 ∧
    (svg_lines.map fun ln =>
      countSubstr "<rect width=\"128\" height=\"128\" fill=\"transparent\" opacity=\"0\"/>" ln).sum = 1 ∧
    (svg_lines.map fun ln => countSubstr "<path" ln).sum = 6 ∧
    (svg_lines.map fun ln => countSubstr "<path d=\"" ln).sum = 6 ∧
    (svg_lines.map fun ln => countSubstr "fill=\"" ln).sum = 2 ∧
    (svg_lines.map fun ln => countSubstr "fill=\"transparent\"" ln).sum = 1 ∧
    (svg_lines.map fun ln => countSubstr "fill=\"#d94343\"" ln).sum = 1 ∧
    (svg_lines.map fun ln => countSubstr "<g transform=" ln).sum = 2 ∧
    (svg_lines.map fun ln => countSubstr "</svg" ln).sum = 1 :=
  ⟨rfl, rfl, rfl, by decide, by decide, by decide, by decide, by decide,
   by decide, by decide, by decide, by decide⟩

/-- Claim C8: generate_icons first ensures the `icons` directory exists
(creating it when absent, a no-op — not an error — when present), then
writes the raster for each size of [16, 18, 19, 38, 48, 128] in order to
icons/<size>.png, and only after all rasters writes the fixed vector
document to icons/secure-share-icon-transparent.svg, overwriting any
existing file at that path: from every starting filesystem state, the final
state has the directory, all six rasters, and the SVG content at that
path. -/
theorem generate_icons_behavior (fs : FS) :
    generate_icons =
      [FsOp.ensureDir "icons",
       FsOp.writePng "icons/16.png" (create_geometric_icon 16),
       FsOp.writePng "icons/18.png" (create_geometric_icon 18),
       FsOp.writePng "icons/19.png" (create_geometric_icon 19),
       FsOp.writePng "icons/38.png" (create_geometric_icon 38),
       FsOp.writePng "icons/48.png" (create_geometric_icon 48),
       FsOp.writePng "icons/128.png" (create_geometric_icon 128),
       FsOp.writeText "icons/secure-share-icon-transparent.svg" svg_content] ∧
    "icons" ∈ (runOps fs generate_icons).dirs ∧
    lookupF (runOps fs generate_icons).files "icons/secure-share-icon-transparent.svg"
      = some (FileData.text svg_content) ∧
    (∀ s ∈ sizes,
      lookupF (runOps fs generate_icons).files ("icons/" ++ toString s ++ ".png")
        = some (FileData.png (create_geometric_icon s))) := by
  have h0 : runOps fs generate_icons =
      writeFile (writeFile (writeFile (writeFile (writeFile (writeFile (writeFile
        (applyOp fs (FsOp.ensureDir "icons"))
        "icons/16.png" (FileData.png (create_geometric_icon 16)))
        "icons/18.png" (FileData.png (create_geometric_icon 18)))
        "icons/19.png" (FileData.png (create_geometric_icon 19)))
        "icons/38.png" (FileData.png (create_geometric_icon 38)))
        "icons/48.png" (FileData.png (create_geometric_icon 48)))
        "icons/128.png" (FileData.png (create_geometric_icon 128)))
        "icons/secure-share-icon-transparent.svg" (FileData.text svg_content) := rfl
  refine ⟨rfl, ?_, ?_, ?_⟩
  · rw [h0]
    simp only [dirs_writeFile]
    show "icons" ∈ (applyOp fs (FsOp.ensureDir "icons")).dirs
    by_cases hmem : "icons" ∈ fs.dirs
    · simp only [applyOp, if_pos hmem]
      exact hmem
    · simp only [applyOp, if_neg hmem]
      exact List.mem_cons_self _ _
  · rw [h0]
    exact lookupF_writeFile_self _ _ _
  · intro s hs
    rw [h0]
    simp only [sizes, List.mem_cons, List.not_mem_nil, or_false] at hs
    rcases hs with rfl | rfl | rfl | rfl | rfl | rfl
    · show lookupF _ "icons/16.png" = _
      rw [lookupF_writeFile_ne _ _ _ _ (by decide),
        lookupF_writeFile_ne _ _ _ _ (by decide),
        lookupF_writeFile_ne _ _ _ _ (by decide),
        lookupF_writeFile_ne _ _ _ _ (by decide),
        lookupF_writeFile_ne _ _ _ _ (by decide),
        lookupF_writeFile_ne _ _ _ _ (by decide)]
      exact lookupF_writeFile_self _ _ _
    · show lookupF _ "icons/18.png" = _
      rw [lookupF_writeFile_ne _ _ _ _ (by decide),
        lookupF_writeFile_ne _ _ _ _ (by decide),
        lookupF_writeFile_ne _ _ _ _ (by decide),
        lookupF_writeFile_ne _ _ _ _ (by decide),
        lookupF_writeFile_ne _ _ _ _ (by decide)]
      exact lookupF_writeFile_self _ _ _
    · show lookupF _ "icons/19.png" = _
      rw [lookupF_writeFile_ne _ _ _ _ (by decide),
        lookupF_writeFile_ne _ _ _ _ (by decide),
        lookupF_writeFile_ne _ _ _ _ (by decide),
        lookupF_writeFile_ne _ _ _ _ (by decide)]
      exact lookupF_writeFile_self _ _ _
    · show lookupF _ "icons/38.png" = _
      rw [lookupF_writeFile_ne _ _ _ _ (by decide),
        lookupF_writeFile_ne _ _ _ _ (by decide),
        lookupF_writeFile_ne _ _ _ _ (by decide)]
      exact lookupF_writeFile_self _ _ _
    · show lookupF _ "icons/48.png" = _
      rw [lookupF_writeFile_ne _ _ _ _ (by decide),
        lookupF_writeFile_ne _ _ _ _ (by decide)]
      exact lookupF_writeFile_self _ _ _
    · show lookupF _ "icons/128.png" = _
      rw [lookupF_writeFile_ne _ _ _ _ (by decide)]
      exact lookupF_writeFile_self _ _ _

theorem generate_icons_behavior_witness :
    "icons" ∈ (runOps ⟨[], []⟩ generate_icons).dirs :=
  (generate_icons_behavior ⟨[], []⟩).2.1

section floor_helpers

theorem iconCoordsQ_of_simple {size : ℤ} (h : size ≤ 19) :
    iconCoordsQ size = simpleCoordsQ size := by
  unfold iconCoordsQ tierOf
  rw [if_pos h]

theorem iconCoordsQ_of_medium {size : ℤ} (h1 : 19 < size) (h2 : size ≤ 48) :
    iconCoordsQ size = mediumCoordsQ size := by
  unfold iconCoordsQ tierOf
  rw [if_neg (by omega), if_pos h2]

theorem iconCoordsQ_of_detailed {size : ℤ} (h : 48 < size) :
    iconCoordsQ size = detailedCoordsQ size := by
  unfold iconCoordsQ tierOf
  rw [if_neg (by omega), if_neg (by omega)]

theorem floor_mul7_div10 (a : ℤ) : ⌊((a : ℚ) * 7) / 10⌋ = a * 7 / 10 := by
  rw [show ((a : ℚ) * 7) = ((a * 7 : ℤ) : ℚ) by push_cast; ring]
  exact_mod_cast Rat.floor_intCast_div_natCast (a * 7) 10

theorem floor_mul2_div5 (a : ℤ) : ⌊((a : ℚ) * 2) / 5⌋ = a * 2 / 5 := by
  rw [show ((a : ℚ) * 2) = ((a * 2 : ℤ) : ℚ) by push_cast; ring]
  exact_mod_cast Rat.floor_intCast_div_natCast (a * 2) 5

theorem floor_div2 (a : ℤ) : ⌊(a : ℚ) / 2⌋ = a / 2 := by
  exact_mod_cast Rat.floor_intCast_div_natCast a 2

theorem floor_div4 (a : ℤ) : ⌊(a : ℚ) / 4⌋ = a / 4 := by
  exact_mod_cast Rat.floor_intCast_div_natCast a 4

theorem floor_div_fiveHalves (a : ℤ) : ⌊(a : ℚ) / (5 / 2)⌋ = a * 2 / 5 := by
  rw [div_div_eq_mul_div]
  exact floor_mul2_div5 a

end floor_helpers

/-- Claim C10: every coordinate create_geometric_icon passes to a drawing
primitive is integral: the exact-rational mirror of the source arithmetic —
flooring exactly where Python floors, including the detailed tier's float
offset `cube_size // 2.5` and the subsequent float floor divisions
`offset // 2` and `offset // 4` — produces exactly the integer coordinates
of the shape list, so the uniform rounding policy applied throughout is
floor and no sub-pixel geometry is ever produced. -/
theorem coords_integral (size : ℤ) (h : 1 ≤ size) :
    iconCoordsQ size = (iconCoords size).map (fun n : ℤ => (n : ℚ)) ∧
    ∀ c ∈ iconCoordsQ size, ∃ n : ℤ, c = (n : ℚ) := by
  have key : iconCoordsQ size = (iconCoords size).map (fun n : ℤ => (n : ℚ)) := by
    rcases le_or_lt size 19 with h1 | h1
    · rw [iconCoordsQ_of_simple h1, iconCoords, iconShapes_of_simple h1]
      simp only [simpleCoordsQ, simpleShapes, floor_mul7_div10]
      by_cases h16 : (16 : ℤ) ≤ size
      · rw [if_pos h16, if_pos h16]
        simp only [List.foldr_cons, List.foldr_nil, shapeCoords,
          List.cons_append, List.nil_append, List.map_cons, List.map_nil]
      · rw [if_neg h16, if_neg h16]
        simp only [List.foldr_cons, List.foldr_nil, shapeCoords,
          List.cons_append, List.nil_append, List.map_cons, List.map_nil]
    · rcases le_or_lt size 48 with h2 | h2
      · rw [iconCoordsQ_of_medium h1 h2, iconCoords, iconShapes_of_medium h1 h2]
        simp only [mediumCoordsQ, mediumShapes, floor_div2]
        simp only [List.foldr_cons, List.foldr_nil, shapeCoords,
          List.cons_append, List.nil_append, List.map_cons, List.map_nil]
      · rw [iconCoordsQ_of_detailed h2, iconCoords, iconShapes_of_detailed h2]
        simp only [detailedCoordsQ, detailedShapes, floor_mul2_div5,
          floor_div_fiveHalves, floor_div2, floor_div4]
        by_cases h128 : (128 : ℤ) ≤ size
        · rw [if_pos h128, if_pos h128]
          simp only [List.foldr_cons, List.foldr_nil, shapeCoords,
            List.cons_append, List.nil_append, List.append_assoc,
            List.map_cons, List.map_nil, List.map_append]
          push_cast
          rfl
        · rw [if_neg h128, if_neg h128]
          simp only [List.foldr_cons, List.foldr_nil, shapeCoords,
            List.cons_append, List.nil_append, List.append_assoc,
            List.map_cons, List.map_nil, List.map_append]
          push_cast
          rfl
  refine ⟨key, ?_⟩
  intro c hc
  rw [key] at hc
  obtain ⟨n, _, rfl⟩ := List.mem_map.mp hc
  exact ⟨n, rfl⟩

theorem coords_integral_witness :
    iconCoordsQ 128 = (iconCoords 128).map (fun n : ℤ => (n : ℚ)) :=
  (coords_integral 128 (by norm_num)).1

end SecureShare
